import Mathlib

/-!
Verification of the Batch Orchestration Engine of the websec-stand repository
(`backend/scripts/batch_manager.js`) against its natural-language specification.

The JavaScript code is shallowly embedded here:
* pure helpers (the findings parsers, the markdown synthesizer, `createBatch`,
  `runScan`) become Lean functions;
* the concurrent scheduler (`startBatch` / `scheduleRun` / `finalizeBatch`)
  becomes a labelled small-step transition system whose atomic steps are the
  synchronous blocks between `await` points of the JavaScript (Node.js runs
  one batch's tasks on a single thread, interleaving only at `await`);
* JavaScript strings keep their String representation, JS `undefined`/missing
  fields become `Option`, truthiness of strings/numbers is modelled explicitly.
-/

namespace WebSecStand

/-! ### JavaScript string helpers -/

/-- Is `l₁` a contiguous sublist of `l₂`? -/
def listContainsSub : List Char → List Char → Bool
  | l₁, [] => l₁.isEmpty
  | l₁, c :: t => l₁.isPrefixOf (c :: t) || listContainsSub l₁ t

/-- JS `String.prototype.includes(sub)`. -/
def jsIncludes (s sub : String) : Bool :=
  listContainsSub sub.toList s.toList

/-- JS `\s` character class (ASCII part, which is all the scanner outputs use). -/
def isJsSpace (c : Char) : Bool :=
  c = ' ' || c = '\t' || c = '\n' || c = '\r' || c = '\x0b' || c = '\x0c'

/-- JS `String.prototype.split(sep)` for a one-character separator. -/
def jsSplitChar (sep : Char) : List Char → List (List Char)
  | [] => [[]]
  | c :: rest =>
    if c = sep then [] :: jsSplitChar sep rest
    else
      match jsSplitChar sep rest with
      | [] => [[c]]
      | g :: gs => (c :: g) :: gs

/-- JS `s.split(sep)` on strings. -/
def jsSplit (s : String) (sep : Char) : List String :=
  (jsSplitChar sep s.toList).map String.mk

/-- JS `String.prototype.trim()`. -/
def jsTrim (s : String) : String :=
  String.mk (((s.toList.dropWhile isJsSpace).reverse.dropWhile isJsSpace).reverse)

/-- JS `String.prototype.startsWith(sub)`. -/
def jsStartsWith (s sub : String) : Bool :=
  sub.toList.isPrefixOf s.toList

/-- JS `parseInt` on a non-empty digit string. -/
def digitsToNat (ds : List Char) : Nat :=
  ds.foldl (fun n c => n * 10 + (c.toNat - '0'.toNat)) 0

/-- JS falsy-aware `a || b` for strings (empty string is falsy). -/
def jsOrStr (a b : String) : String :=
  if a = "" then b else a

/-- JS falsy-aware `a || b` where `a` may be `undefined` (`none`) or empty. -/
def jsOrOptStr (a : Option String) (b : String) : String :=
  match a with
  | none => b
  | some s => jsOrStr s b

/-- JS truthiness of a possibly-undefined string field. -/
def strTruthy (a : Option String) : Bool :=
  match a with
  | none => false
  | some s => s ≠ ""

/-- JS truthiness of a possibly-undefined number field (0 is falsy). -/
def natTruthy (a : Option Nat) : Bool :=
  match a with
  | none => false
  | some n => n ≠ 0

/-! ### Findings

A `Finding` mirrors the plain objects pushed by the parsers in
`batch_manager.js`; fields that only some parsers set are `Option`s
(absent field = JS `undefined` = `none`). -/

structure Finding where
  severity : String
  title : String
  tool : String
  type : Option String := none
  line : String := ""
  identifier : Option String := none
  alertCount : Option Nat := none
  confidence : Option String := none
  count : Option Nat := none
  cweid : Option String := none
  wascid : Option String := none
  description : Option String := none
  solution : Option String := none
  deriving Repr, DecidableEq

/-! ### The ZAP stdout parser (`parseZapFindings`)

The title regex `/(?:WARN-NEW|FAIL-NEW):\s*(.+?)(?:\s*\[|\s*$)/` is embedded
operationally: leftmost match over start positions, greedy `\s*` with
backtracking, lazy `(.+?)` (shortest first), alternation `\s*\[` before
`\s*$`, `.` not matching a newline. -/

/-- Does `(?:\s*\[|\s*$)` match at `rest`? -/
def zapTryTail (rest : List Char) : Bool :=
  let r := rest.dropWhile isJsSpace
  r.head? == some '[' || r.isEmpty

/-- Lazy `(.+?)` expansion: shortest non-empty capture after which the tail
matches. -/
def zapLazyFrom : List Char → Option (List Char)
  | [] => none
  | c :: rest =>
    if c = '\n' then none
    else if zapTryTail rest then some [c]
    else (zapLazyFrom rest).map (c :: ·)

/-- Greedy `\s*` with backtracking: try skipping `j` chars first, then fewer. -/
def zapWsBacktrack (s : List Char) : Nat → Option (List Char)
  | 0 => zapLazyFrom s
  | j+1 =>
    match zapLazyFrom (s.drop (j+1)) with
    | some cap => some cap
    | none => zapWsBacktrack s j

/-- `\s*(.+?)(?:\s*\[|\s*$)` matched against `s` (the text after the marker). -/
def zapCaptureAfterMarker (s : List Char) : Option (List Char) :=
  zapWsBacktrack s (s.takeWhile isJsSpace).length

/-- Leftmost search for `(?:WARN-NEW|FAIL-NEW):` followed by a matching rest. -/
def zapTitleSearch : List Char → Option (List Char)
  | [] => none
  | c :: rest =>
    if "WARN-NEW:".toList.isPrefixOf (c :: rest) then
      match zapCaptureAfterMarker ((c :: rest).drop 9) with
      | some cap => some cap
      | none => zapTitleSearch rest
    else if "FAIL-NEW:".toList.isPrefixOf (c :: rest) then
      match zapCaptureAfterMarker ((c :: rest).drop 9) with
      | some cap => some cap
      | none => zapTitleSearch rest
    else zapTitleSearch rest

/-- `titleMatch ? titleMatch[1].trim() : 'Unknown vulnerability'`. -/
def zapFindingTitle (line : String) : String :=
  match zapTitleSearch line.toList with
  | some cap => jsTrim (String.mk cap)
  | none => "Unknown vulnerability"

/-- The `WARN-NEW:`/`FAIL-NEW:` baseline branch of `parseZapFindings`. -/
def zapBaselineFindings (line : String) : List Finding :=
  if jsIncludes line "WARN-NEW:" || jsIncludes line "FAIL-NEW:" then
    let severity := if jsIncludes line "WARN-NEW:" then "MEDIUM" else "HIGH"
    [{ severity := severity, title := zapFindingTitle line, tool := "zap",
       type := some "baseline_finding", line := jsTrim line }]
  else []

/-- The regex `/(\d+)\s+alerts?\s+found/i` anchored at the current position. -/
def matchAlertsAt (s : List Char) : Option Nat :=
  let digits := s.takeWhile Char.isDigit
  if digits.isEmpty then none
  else
    let r1 := s.drop digits.length
    let sp1 := r1.takeWhile isJsSpace
    if sp1.isEmpty then none
    else
      let r2 := r1.drop sp1.length
      if "alert".toList.isPrefixOf (r2.map Char.toLower) then
        let r3 := r2.drop 5
        let r3s := if (r3.map Char.toLower).head? == some 's' then r3.drop 1 else r3
        let sp2 := r3s.takeWhile isJsSpace
        if sp2.isEmpty then none
        else
          let r4 := r3s.drop sp2.length
          if "found".toList.isPrefixOf (r4.map Char.toLower) then
            some (digitsToNat digits)
          else none
      else none

/-- Leftmost match of `/(\d+)\s+alerts?\s+found/i`, returning `parseInt` of the
digit capture. -/
def matchAlerts : List Char → Option Nat
  | [] => none
  | c :: rest =>
    match matchAlertsAt (c :: rest) with
    | some n => some n
    | none => matchAlerts rest

/-- The automation-framework branch of `parseZapFindings`. -/
def zapAutomationFindings (line : String) : List Finding :=
  if jsIncludes line "FINISHED JOB" || jsIncludes line "alerts found" then
    match matchAlerts line.toList with
    | some alertCount =>
      if alertCount > 0 then
        [{ severity := "INFO",
           title := "ZAP Automation Framework scan completed: " ++
             toString alertCount ++ " alerts found",
           tool := "zap", type := some "scan_summary",
           alertCount := some alertCount, line := jsTrim line }]
      else []
    | none => []
  else []

/-- `determineZapSeverity`. -/
def determineZapSeverity (line : String) : String :=
  if jsIncludes line "FAIL" || jsIncludes line "HIGH" || jsIncludes line "Critical" then
    "HIGH"
  else if jsIncludes line "WARN" || jsIncludes line "MEDIUM" || jsIncludes line "Warning" then
    "MEDIUM"
  else if jsIncludes line "INFO" || jsIncludes line "LOW" || jsIncludes line "Information" then
    "LOW"
  else "MEDIUM"

/-- The XSS-detection branch of `parseZapFindings`. -/
def zapXssFindings (line : String) : List Finding :=
  if jsIncludes line "Cross Site Scripting" || jsIncludes line "XSS" then
    [{ severity := determineZapSeverity line,
       title := "Cross-Site Scripting (XSS) vulnerability detected",
       tool := "zap", type := some "xss_finding", line := jsTrim line }]
  else []

/-- The SQL-injection branch of `parseZapFindings`. -/
def zapSqliFindings (line : String) : List Finding :=
  if jsIncludes line "SQL Injection" || jsIncludes line "SQLi" then
    [{ severity := determineZapSeverity line,
       title := "SQL Injection vulnerability detected",
       tool := "zap", type := some "sql_injection", line := jsTrim line }]
  else []

/-- The path-traversal branch of `parseZapFindings`. -/
def zapPathFindings (line : String) : List Finding :=
  if jsIncludes line "Path Traversal" || jsIncludes line "Directory Browsing" then
    [{ severity := determineZapSeverity line,
       title := "Path Traversal vulnerability detected",
       tool := "zap", type := some "path_traversal", line := jsTrim line }]
  else []

/-- The CSRF branch of `parseZapFindings`. -/
def zapCsrfFindings (line : String) : List Finding :=
  if jsIncludes line "CSRF" || jsIncludes line "Cross-Site Request Forgery" then
    [{ severity := determineZapSeverity line,
       title := "CSRF vulnerability detected",
       tool := "zap", type := some "csrf", line := jsTrim line }]
  else []

/-- The API-endpoint branch of `parseZapFindings`. -/
def zapApiFindings (line : String) : List Finding :=
  if jsIncludes line "/rest/" || jsIncludes line "/api/" then
    if jsIncludes line "500" || jsIncludes line "error" || jsIncludes line "exception" then
      [{ severity := "MEDIUM", title := "API endpoint error/exception detected",
         tool := "zap", type := some "api_error", line := jsTrim line }]
    else []
  else []

/-- All findings one iteration of the `for (const line of lines)` loop pushes. -/
def zapLineFindings (line : String) : List Finding :=
  zapBaselineFindings line ++ zapAutomationFindings line ++ zapXssFindings line ++
    zapSqliFindings line ++ zapPathFindings line ++ zapCsrfFindings line ++
    zapApiFindings line

/-- `parseZapFindings`: split on newlines, process each line in order. -/
def parseZapFindings (rawOutput : String) : List Finding :=
  (jsSplit rawOutput '\n').flatMap zapLineFindings

/-! ### The Nikto stdout parser (`parseNiktoFindings`)

Its regex `/\+\s*(.+?):\s*(.+)/` is embedded with the same operational
reading: leftmost `+`, greedy backtracking `\s*`, lazy first capture,
then `:`, `\s*`, and a non-empty greedy second capture. -/

/-- `:\s*(.+)` at `rest`: returns the second capture when it matches. -/
def niktoTryTail (rest : List Char) : Option (List Char) :=
  match rest with
  | ':' :: r =>
    if r.isEmpty then none
    else some (r.drop (min (r.takeWhile isJsSpace).length (r.length - 1)))
  | _ => none

/-- Lazy `(.+?)` for the Nikto regex: shortest non-empty first capture. -/
def niktoLazyFrom : List Char → Option (List Char × List Char)
  | [] => none
  | c :: rest =>
    if c = '\n' then none
    else
      match niktoTryTail rest with
      | some cap2 => some ([c], cap2)
      | none => (niktoLazyFrom rest).map (fun p => (c :: p.1, p.2))

/-- Greedy `\s*` with backtracking for the Nikto regex. -/
def niktoWsBacktrack (s : List Char) : Nat → Option (List Char × List Char)
  | 0 => niktoLazyFrom s
  | j+1 =>
    match niktoLazyFrom (s.drop (j+1)) with
    | some r => some r
    | none => niktoWsBacktrack s j

/-- Leftmost match of `/\+\s*(.+?):\s*(.+)/`, as `(identifier, description)`. -/
def niktoVulnMatch : List Char → Option (String × String)
  | [] => none
  | c :: rest =>
    if c = '+' then
      match niktoWsBacktrack rest (rest.takeWhile isJsSpace).length with
      | some p => some (String.mk p.1, String.mk p.2)
      | none => niktoVulnMatch rest
    else niktoVulnMatch rest

/-- The `line.startsWith('+')` branch of `parseNiktoFindings`, including the
keyword-based severity heuristic. -/
def niktoPlusFindings (line : String) : List Finding :=
  if jsStartsWith line "+" then
    match niktoVulnMatch line.toList with
    | some (identPart, description) =>
      let sevType : String × String :=
        if jsIncludes description "admin" || jsIncludes description "password" ||
            jsIncludes description "config" then
          ("HIGH", "sensitive_exposure")
        else if jsIncludes description "directory" || jsIncludes description "file" ||
            jsIncludes description "backup" then
          ("MEDIUM", "information_disclosure")
        else if jsIncludes description "version" || jsIncludes description "server" then
          ("LOW", "version_disclosure")
        else ("LOW", "info")
      [{ severity := sevType.1, title := jsTrim description, tool := "nikto",
         type := some sevType.2, identifier := some (jsTrim identPart),
         line := jsTrim line }]
    | none => []
  else []

/-- `/(\d+)\s+(items checked|requests made)/` anchored at the current position,
returning the full matched text (`statsMatch[0]`). -/
def matchNiktoStatsAt (s : List Char) : Option (List Char) :=
  let digits := s.takeWhile Char.isDigit
  if digits.isEmpty then none
  else
    let r1 := s.drop digits.length
    let sp1 := r1.takeWhile isJsSpace
    if sp1.isEmpty then none
    else
      let r2 := r1.drop sp1.length
      if "items checked".toList.isPrefixOf r2 then
        some (digits ++ sp1 ++ "items checked".toList)
      else if "requests made".toList.isPrefixOf r2 then
        some (digits ++ sp1 ++ "requests made".toList)
      else none

/-- Leftmost match of `/(\d+)\s+(items checked|requests made)/`. -/
def matchNiktoStats : List Char → Option (List Char)
  | [] => none
  | c :: rest =>
    match matchNiktoStatsAt (c :: rest) with
    | some m => some m
    | none => matchNiktoStats rest

/-- The scan-statistics branch of `parseNiktoFindings`. -/
def niktoStatsFindings (line : String) : List Finding :=
  if jsIncludes line "items checked" || jsIncludes line "requests made" then
    match matchNiktoStats line.toList with
    | some m =>
      [{ severity := "INFO", title := "Nikto scan statistics: " ++ String.mk m,
         tool := "nikto", type := some "scan_stats", line := jsTrim line }]
    | none => []
  else []

/-- The server-error branch of `parseNiktoFindings`. -/
def niktoErrorFindings (line : String) : List Finding :=
  if jsIncludes line "ERROR" || jsIncludes line "500" || jsIncludes line "403" then
    [{ severity := "MEDIUM", title := "Server error or access restriction detected",
       tool := "nikto", type := some "server_error", line := jsTrim line }]
  else []

/-- All findings one Nikto loop iteration pushes. -/
def niktoLineFindings (line : String) : List Finding :=
  niktoPlusFindings line ++ niktoStatsFindings line ++ niktoErrorFindings line

/-- `parseNiktoFindings`. -/
def parseNiktoFindings (rawOutput : String) : List Finding :=
  (jsSplit rawOutput '\n').flatMap niktoLineFindings

/-! ### The Wapiti stdout parser (`parseWapitiFindings`) -/

/-- The XSS branch. -/
def wapitiXssFindings (line : String) : List Finding :=
  if jsIncludes line "XSS" || jsIncludes line "Cross Site Scripting" then
    [{ severity := "HIGH", title := "Cross-Site Scripting vulnerability",
       tool := "wapiti", type := some "xss", line := jsTrim line }]
  else []

/-- The SQL-injection branch. -/
def wapitiSqlFindings (line : String) : List Finding :=
  if jsIncludes line "SQL" || jsIncludes line "sql injection" then
    [{ severity := "HIGH", title := "SQL Injection vulnerability",
       tool := "wapiti", type := some "sql_injection", line := jsTrim line }]
  else []

/-- The SSRF branch. -/
def wapitiSsrfFindings (line : String) : List Finding :=
  if jsIncludes line "SSRF" || jsIncludes line "Server Side Request Forgery" then
    [{ severity := "HIGH", title := "Server-Side Request Forgery vulnerability",
       tool := "wapiti", type := some "ssrf", line := jsTrim line }]
  else []

/-- The file-upload branch. -/
def wapitiUploadFindings (line : String) : List Finding :=
  if jsIncludes line "upload" && jsIncludes line "vulnerability" then
    [{ severity := "HIGH", title := "File Upload vulnerability",
       tool := "wapiti", type := some "file_upload", line := jsTrim line }]
  else []

/-- The open-redirect branch. -/
def wapitiRedirectFindings (line : String) : List Finding :=
  if jsIncludes line "redirect" || jsIncludes line "open redirect" then
    [{ severity := "MEDIUM", title := "Open Redirect vulnerability",
       tool := "wapiti", type := some "open_redirect", line := jsTrim line }]
  else []

/-- `/(\d+)\s+(pages|forms)\s+found/` anchored at the current position,
returning the full matched text (`statsMatch[0]`). -/
def matchWapitiStatsAt (s : List Char) : Option (List Char) :=
  let digits := s.takeWhile Char.isDigit
  if digits.isEmpty then none
  else
    let r1 := s.drop digits.length
    let sp1 := r1.takeWhile isJsSpace
    if sp1.isEmpty then none
    else
      let r2 := r1.drop sp1.length
      let kw : Option (List Char) :=
        if "pages".toList.isPrefixOf r2 then some "pages".toList
        else if "forms".toList.isPrefixOf r2 then some "forms".toList
        else none
      match kw with
      | none => none
      | some k =>
        let r3 := r2.drop k.length
        let sp2 := r3.takeWhile isJsSpace
        if sp2.isEmpty then none
        else
          let r4 := r3.drop sp2.length
          if "found".toList.isPrefixOf r4 then
            some (digits ++ sp1 ++ k ++ sp2 ++ "found".toList)
          else none

/-- Leftmost match of `/(\d+)\s+(pages|forms)\s+found/`. -/
def matchWapitiStats : List Char → Option (List Char)
  | [] => none
  | c :: rest =>
    match matchWapitiStatsAt (c :: rest) with
    | some m => some m
    | none => matchWapitiStats rest

/-- The discovery-statistics branch. -/
def wapitiStatsFindings (line : String) : List Finding :=
  if jsIncludes line "pages found" || jsIncludes line "forms found" then
    match matchWapitiStats line.toList with
    | some m =>
      [{ severity := "INFO", title := "Wapiti discovery: " ++ String.mk m,
         tool := "wapiti", type := some "scan_stats", line := jsTrim line }]
    | none => []
  else []

/-- The warning/error branch (note the two sequential severity overrides). -/
def wapitiIssueFindings (line : String) : List Finding :=
  if jsIncludes line "[!]" || jsIncludes line "WARNING" || jsIncludes line "ERROR" then
    let sev0 := "LOW"
    let sev1 := if jsIncludes line "ERROR" then "MEDIUM" else sev0
    let sev2 := if jsIncludes line "CRITICAL" then "HIGH" else sev1
    [{ severity := sev2, title := "Wapiti scan warning or error",
       tool := "wapiti", type := some "scan_issue", line := jsTrim line }]
  else []

/-- All findings one Wapiti loop iteration pushes. -/
def wapitiLineFindings (line : String) : List Finding :=
  wapitiXssFindings line ++ wapitiSqlFindings line ++ wapitiSsrfFindings line ++
    wapitiUploadFindings line ++ wapitiRedirectFindings line ++
    wapitiStatsFindings line ++ wapitiIssueFindings line

/-- `parseWapitiFindings`. -/
def parseWapitiFindings (rawOutput : String) : List Finding :=
  (jsSplit rawOutput '\n').flatMap wapitiLineFindings

/-- `parseFindingsFromStdout`: dispatch on the tool identifier; unknown tools
yield the single placeholder finding. -/
def parseFindingsFromStdout (rawOutput tool : String) : List Finding :=
  if tool = "zap" then parseZapFindings rawOutput
  else if tool = "nikto" then parseNiktoFindings rawOutput
  else if tool = "wapiti" then parseWapitiFindings rawOutput
  else
    [{ severity := "INFO", title := "Parser not implemented for this tool",
       tool := tool, line := "Raw output available in artifacts" }]

/-! ### The executor and `runScan`

`runScan` spawns `run_scan.sh` via `execa` and awaits it inside `try/catch`.
`execa` resolves only when the child exits with code 0; it rejects with an
error object carrying `exitCode` (and a non-empty `Command failed …` message)
on a non-zero exit, and with `exitCode === undefined` on a spawn failure.
An `ExecOutcome` is the executor's terminal behaviour together with the text
accumulated by the `data` handlers on its stdout/stderr streams. -/

inductive ExecOutcome where
  /-- The child process exited with `code`, having produced `stdout`/`stderr`. -/
  | exited (code : Nat) (stdout stderr : String)
  /-- The child process failed to spawn with error message `message`. -/
  | spawnFail (message : String) (stdout stderr : String)
  deriving Repr, DecidableEq

/-- Accumulated stdout of an outcome. -/
def ExecOutcome.stdoutText : ExecOutcome → String
  | .exited _ out _ => out
  | .spawnFail _ out _ => out

/-- Accumulated stderr of an outcome. -/
def ExecOutcome.stderrText : ExecOutcome → String
  | .exited _ _ err => err
  | .spawnFail _ _ err => err

/-- Does `await process` resolve (execa succeeds only on exit code 0)? -/
def ExecOutcome.isOk : ExecOutcome → Bool
  | .exited 0 _ _ => true
  | _ => false

/-- The non-empty message of the error `execa` rejects with on exit code `c`. -/
def execaFailMessage (c : Nat) : String :=
  "Command failed with exit code " ++ toString c

/-- The result record `runScan` resolves with. -/
structure RunScanResult where
  runId : String
  exitCode : Option Nat
  stdout : String
  stderr : String
  error : Option String := none
  duration : Nat
  success : Bool
  deriving Repr, DecidableEq

/-- `runScan`, as a function of the executor's outcome and of the wall-clock
times sampled at entry and at termination.  The second component of the pair
is the content written to the per-run `_raw.txt` artifact file; the write
happens on both the resolve and the reject path of `await process`.
`runScan` itself always resolves: both paths `return`. -/
def runScan (scriptRunId : String) (outcome : ExecOutcome)
    (startTime endTime : Nat) : RunScanResult × String :=
  match outcome with
  | .exited 0 out err =>
    ({ runId := scriptRunId, exitCode := some 0, stdout := out, stderr := err,
       duration := endTime - startTime, success := true }, out)
  | .exited c out err =>
    ({ runId := scriptRunId, exitCode := some c, stdout := out, stderr := err,
       error := some (execaFailMessage c), duration := endTime - startTime,
       success := false }, out)
  | .spawnFail msg out err =>
    ({ runId := scriptRunId, exitCode := none, stdout := out, stderr := err,
       error := some msg, duration := endTime - startTime,
       success := false }, out)

/-! ### The batch data model (`createBatch` and the registry) -/

/-- The configuration passed to `createBatch`; `repetitions` is a JS number
and may be zero or negative (nothing validates it). -/
structure ScanConfig where
  tool : String
  targetUrl : String
  repetitions : Int
  deriving Repr, DecidableEq

/-- The `progress` object of a batch. `total` copies `config.repetitions`. -/
structure Progress where
  total : Int
  completed : Nat
  running : Nat
  failed : Nat
  deriving Repr, DecidableEq

/-- One element of `batch.runStatuses`. -/
structure RunStatus where
  runIndex : Nat
  runId : String
  status : String
  startedAt : Option Nat := none
  completedAt : Option Nat := none
  duration : Option Nat := none
  result : Option RunScanResult := none
  error : Option String := none
  logs : List String := []
  deriving Repr, DecidableEq

/-- One element of `batch.runs` (pushed on run termination). -/
structure RunEntry where
  runIndex : Nat
  runId : String
  result : Option RunScanResult := none
  error : Option String := none
  completedAt : Nat
  deriving Repr, DecidableEq

/-- A WebSocket client: identity plus `readyState` (1 = OPEN). -/
structure WsClient where
  wsId : Nat
  readyState : Nat
  deriving Repr, DecidableEq

/-- A batch record, as assembled by `createBatch`. -/
structure BatchRec where
  id : String
  config : ScanConfig
  status : String
  createdAt : Nat
  runs : List RunEntry
  runStatuses : List RunStatus
  progress : Progress
  clients : List WsClient
  deriving Repr, DecidableEq

/-- `` `${batchId}_run_${runIndex}` ``, the per-run identifier. -/
def runIdOf (batchId : String) (i : Nat) : String :=
  batchId ++ "_run_" ++ toString i

/-- The pristine `runStatuses` entry `createBatch` allocates for index `i`. -/
def initRunStatus (batchId : String) (i : Nat) : RunStatus :=
  { runIndex := i, runId := runIdOf batchId i, status := "pending" }

/-- The batch identifier, from the creation time, the random suffix and the
tool name. -/
def mkBatchId (now : Nat) (rand : String) (tool : String) : String :=
  "batch_" ++ toString now ++ "_" ++ rand ++ "_" ++ tool

/-- The registry `this.batches` (a `Map` keyed by batch id). -/
abbrev Registry := List (String × BatchRec)

/-- `Map.prototype.get`. -/
def Registry.get (reg : Registry) (batchId : String) : Option BatchRec :=
  match reg with
  | [] => none
  | (k, b) :: rest => if k = batchId then some b else Registry.get rest batchId

/-- `Map.prototype.set`. -/
def Registry.set (reg : Registry) (batchId : String) (b : BatchRec) : Registry :=
  match reg with
  | [] => [(batchId, b)]
  | (k, b') :: rest =>
    if k = batchId then (k, b) :: rest else (k, b') :: Registry.set rest batchId b

/-- `createBatch(config)`: builds the batch record (note: no validation of
`config.repetitions` happens anywhere) and stores it in the registry.
`now` models `Date.now()` and `rand` the random id suffix. -/
def createBatch (reg : Registry) (config : ScanConfig) (now : Nat)
    (rand : String) : Registry × BatchRec :=
  let batchId := mkBatchId now rand config.tool
  let runStatuses := (List.range config.repetitions.toNat).map (initRunStatus batchId)
  let batch : BatchRec :=
    { id := batchId, config := config, status := "created", createdAt := now,
      runs := [], runStatuses := runStatuses,
      progress := { total := config.repetitions, completed := 0, running := 0,
                    failed := 0 },
      clients := [] }
  (reg.set batchId batch, batch)

/-! ### The event bus (`subscribeClient` / `broadcastToBatch`) -/

/-- A message sent over a WebSocket (the JSON payloads of the engine). -/
inductive WsMessage where
  /-- The `batch_status` snapshot sent on subscribe. -/
  | batchStatus (batchId status : String) (progress : Progress)
      (runStatuses : List RunStatus)
  /-- Any other broadcast payload, by its `type` tag. -/
  | other (tag : String)
  deriving Repr, DecidableEq

/-- `subscribeClient(batchId, ws)`: on a known batch, add `ws` to the batch's
client set and send it one `batch_status` snapshot; on an unknown batch do
nothing.  Returns the updated registry and the list of `(recipient, message)`
sends performed. -/
def subscribeClient (reg : Registry) (batchId : String) (ws : WsClient) :
    Registry × List (Nat × WsMessage) :=
  match reg.get batchId with
  | none => (reg, [])
  | some batch =>
    let batch' := { batch with clients := batch.clients ++ [ws] }
    (reg.set batchId batch',
     [(ws.wsId, .batchStatus batchId batch.status batch.progress batch.runStatuses)])

/-- `broadcastToBatch(batchId, data)`: send `data` to every subscribed client
whose `readyState` is OPEN; unknown batches broadcast to nobody. -/
def broadcastToBatch (reg : Registry) (batchId : String) (data : WsMessage) :
    List (Nat × WsMessage) :=
  match reg.get batchId with
  | none => []
  | some batch =>
    (batch.clients.filter (fun ws => ws.readyState = 1)).map
      (fun ws => (ws.wsId, data))

/-! ### The run scheduler (`startBatch` / `scheduleRun` / `finalizeBatch`)
as a small-step transition system

Node.js interleaves the N concurrent `scheduleRun(batchId, i)` tasks of a
started batch only at `await` points, so each of the following is one atomic
step of one task:

* **admitRun**: the admission `while` loop observes
  `progress.running < maxConcurrent` and, in the same synchronous block,
  increments `progress.running` and marks the run `running` (lines 120–139);
* **finishOk**: the task resumes after `await runScan(...)` — which always
  resolves — and, synchronously, records the result, marks the run
  `completed`, increments `completed` and (in `finally`) decrements
  `running` (lines 149–183, 218–220);
* **finishErr**: an exception thrown inside the `try` block (necessarily not
  from `runScan`, which never rejects) lands in `catch`: the run is marked
  `failed`, `failed` is incremented and `running` decremented (lines 185–220);
* **finalize**: after `Promise.allSettled` resolves — i.e. every run is
  terminal — `finalizeBatch` sets the batch status to `completed`
  (lines 106–110, 306–308).

A poll iteration of the admission loop that observes `running ≥ cap` leaves
the state unchanged and is elided. -/

/-- `this.maxConcurrent` from the `BatchManager` constructor. -/
def maxConcurrent : Nat := 3

/-- The scheduler-visible state of one started batch. -/
structure SchedState where
  batchId : String
  runStatuses : List RunStatus
  runs : List RunEntry
  completed : Nat
  failed : Nat
  running : Nat
  status : String
  deriving Repr, DecidableEq

/-- State after the admission block of `scheduleRun` for run `i` (previously
`r`), at time `t`. -/
def admitState (s : SchedState) (i : Nat) (r : RunStatus) (t : Nat) : SchedState :=
  { s with
    runStatuses := s.runStatuses.set i { r with status := "running", startedAt := some t },
    running := s.running + 1 }

/-- State after the success path of `scheduleRun` for run `i`: `runScan`
resolved with the result for executor outcome `o` (`t0`/`t1` are the
`Date.now()` samples inside `runScan`, `t2` the completion timestamp). -/
def finishOkState (s : SchedState) (i : Nat) (r : RunStatus) (o : ExecOutcome)
    (t0 t1 t2 : Nat) : SchedState :=
  let runId := runIdOf s.batchId i
  let result := (runScan (runId ++ "_" ++ toString t0) o t0 t1).1
  { s with
    runs := s.runs ++ [{ runIndex := i, runId := runId, result := some result,
                         completedAt := t2 }],
    runStatuses := s.runStatuses.set i
      { r with status := "completed", completedAt := some t2,
               duration := some result.duration, result := some result },
    completed := s.completed + 1,
    running := s.running - 1 }

/-- State after the `catch` path of `scheduleRun` for run `i` with error
message `msg` at time `t`. -/
def finishErrState (s : SchedState) (i : Nat) (r : RunStatus) (msg : String)
    (t : Nat) : SchedState :=
  let runId := runIdOf s.batchId i
  { s with
    failed := s.failed + 1,
    runStatuses := s.runStatuses.set i
      { r with status := "failed", completedAt := some t, error := some msg },
    runs := s.runs ++ [{ runIndex := i, runId := runId, error := some msg,
                         completedAt := t }],
    running := s.running - 1 }

/-- State after `finalizeBatch` set the batch status. -/
def finalizeState (s : SchedState) : SchedState :=
  { s with status := "completed" }

/-- Which atomic scheduler step fired. -/
inductive SLabel where
  | admitRun (i t : Nat)
  | finishOk (i : Nat) (o : ExecOutcome) (t0 t1 t2 : Nat)
  | finishErr (i : Nat) (msg : String) (t : Nat)
  | finalize
  deriving Repr, DecidableEq

/-- One atomic step of the scheduler of a started batch. -/
inductive Step : SLabel → SchedState → SchedState → Prop where
  | admitRun {s : SchedState} {i t : Nat} {r : RunStatus}
      (hr : s.runStatuses.get? i = some r) (hp : r.status = "pending")
      (hc : s.running < maxConcurrent) :
      Step (.admitRun i t) s (admitState s i r t)
  | finishOk {s : SchedState} {i : Nat} {r : RunStatus} (o : ExecOutcome)
      (t0 t1 t2 : Nat)
      (hr : s.runStatuses.get? i = some r) (hp : r.status = "running") :
      Step (.finishOk i o t0 t1 t2) s (finishOkState s i r o t0 t1 t2)
  | finishErr {s : SchedState} {i : Nat} {r : RunStatus} (msg : String) (t : Nat)
      (hr : s.runStatuses.get? i = some r) (hp : r.status = "running") :
      Step (.finishErr i msg t) s (finishErrState s i r msg t)
  | finalize {s : SchedState} (hs : s.status = "running")
      (hall : ∀ r ∈ s.runStatuses, r.status = "completed" ∨ r.status = "failed") :
      Step .finalize s (finalizeState s)

/-- Some step fired. -/
def StepAny (s s' : SchedState) : Prop := ∃ l, Step l s s'

/-- The scheduler state right after `startBatch` began a freshly-created batch
with `N` runs: every run `pending`, all counters zero, status `running`. -/
def initSched (batchId : String) (N : Nat) : SchedState :=
  { batchId := batchId,
    runStatuses := (List.range N).map (initRunStatus batchId),
    runs := [], completed := 0, failed := 0, running := 0, status := "running" }

/-- States the started batch can be in at some point of the execution. -/
def Reach (batchId : String) (N : Nat) (s : SchedState) : Prop :=
  Relation.ReflTransGen StepAny (initSched batchId N) s

/-! ### Counter bookkeeping -/

/-- How many runs of `l` currently have status `st`. -/
def countStatus (st : String) (l : List RunStatus) : Nat :=
  l.countP (fun r => r.status == st)

/-- The inductive invariant of a started batch with `N` runs. -/
structure Inv (N : Nat) (s : SchedState) : Prop where
  len : s.runStatuses.length = N
  run_eq : s.running = countStatus "running" s.runStatuses
  comp_eq : s.completed = countStatus "completed" s.runStatuses
  fail_eq : s.failed = countStatus "failed" s.runStatuses
  cap : s.running ≤ maxConcurrent
  statuses : ∀ r ∈ s.runStatuses, r.status = "pending" ∨ r.status = "running" ∨
    r.status = "completed" ∨ r.status = "failed"
  bstatus : s.status = "running" ∨ s.status = "completed"
  done_when_completed : s.status = "completed" →
    countStatus "pending" s.runStatuses = 0 ∧ countStatus "running" s.runStatuses = 0
  result_status : ∀ r ∈ s.runStatuses, r.result.isSome → r.status = "completed"
  result_err : ∀ r ∈ s.runStatuses, ∀ res, r.result = some res →
    res.success = false → res.error.isSome

/-! ### Report synthesis (`generateMarkdownContent`)

The function is pure except for one read of the clock:
`metadata.timestamp || new Date().toISOString()`.  The clock value is made an
explicit argument `now`, used exactly where the code reads it.  JS float
formatting of `Math.round(x*100)/100` is modelled as exact decimal rendering
of the rational `round(x*100)/100`. -/

/-- The metadata object assembled by `generateMarkdownReport`. -/
structure ReportMetadata where
  tool : String
  target_url : String
  duration_seconds : Option Rat := none
  timestamp : Option String := none
  deriving Repr, DecidableEq

/-- JS `Math.round` (half-up, also for negatives). -/
def jsRound (q : Rat) : Int :=
  Rat.floor (q + 1/2)

/-- `${Math.round(q * 100) / 100}` as printed into the report. -/
def renderRound2 (q : Rat) : String :=
  let k := jsRound (q * 100)
  let sign := if k < 0 then "-" else ""
  let n := k.natAbs
  let ip := n / 100
  let fp := n % 100
  if fp = 0 then sign ++ toString ip
  else if fp % 10 = 0 then sign ++ toString ip ++ "." ++ toString (fp / 10)
  else if fp < 10 then sign ++ toString ip ++ ".0" ++ toString fp
  else sign ++ toString ip ++ "." ++ toString fp

/-- `${result.exitCode || 'Unknown'}` (note: exit code 0 is falsy in JS). -/
def renderExitCode : Option Nat → String
  | none => "Unknown"
  | some 0 => "Unknown"
  | some c => toString c

/-- `${s.slice(0, 200)}${s.length > 200 ? '...' : ''}`. -/
def jsSliceDots (s : String) : String :=
  (String.mk (s.toList.take 200)) ++ (if s.length > 200 then "..." else "")

/-- The leading template literal of `generateMarkdownContent`. -/
def mdHeader (runId : String) (m : ReportMetadata) (result : RunScanResult)
    (findings : List Finding) (timestamp : String) : String :=
  "# Security Scan Report - " ++ runId ++
    "\n\n## Scan Information\n- **Tool**: " ++ jsOrStr m.tool "Unknown" ++
    "\n- **Target URL**: " ++ jsOrStr m.target_url "Unknown" ++
    "\n- **Duration**: " ++ renderRound2 (m.duration_seconds.getD 0) ++
    "s\n- **Exit Code**: " ++ renderExitCode result.exitCode ++
    "\n- **Timestamp**: " ++ timestamp ++
    "\n\n## Findings Summary\n**Total Findings**: " ++ toString findings.length ++
    "\n\n"

/-- One row of the findings summary table. -/
def mdFindingRow (f : Finding) : String :=
  "| " ++ f.severity ++ " | " ++ f.title ++ " | " ++ f.tool ++ " |\n"

/-- One block of the Detailed Findings section (0-based index `i`). -/
def mdFindingDetail (i : Nat) (f : Finding) : String :=
  "### " ++ toString (i + 1) ++ ". " ++ f.title ++ "\n" ++
  "- **Severity**: " ++ f.severity ++ "\n" ++
  "- **Tool**: " ++ f.tool ++ "\n" ++
  (if f.type = some "json_alert" then
    (if strTruthy f.confidence then
      "- **Confidence**: " ++ f.confidence.getD "" ++ "\n" else "") ++
    (if natTruthy f.count then
      "- **Instances**: " ++ toString (f.count.getD 0) ++ "\n" else "") ++
    (if strTruthy f.cweid then
      "- **CWE ID**: " ++ f.cweid.getD "" ++ "\n" else "") ++
    (if strTruthy f.wascid then
      "- **WASC ID**: " ++ f.wascid.getD "" ++ "\n" else "") ++
    (if strTruthy f.description then
      "- **Description**: " ++ jsSliceDots (f.description.getD "") ++ "\n" else "") ++
    (if strTruthy f.solution then
      "- **Solution**: " ++ jsSliceDots (f.solution.getD "") ++ "\n" else "")
  else if f.type = some "scan_summary" ∧ natTruthy f.alertCount then
    "- **Alert Count**: " ++ toString (f.alertCount.getD 0) ++ "\n"
  else if strTruthy f.identifier then
    "- **Identifier**: " ++ f.identifier.getD "" ++ "\n"
  else "") ++
  "- **Type**: " ++ jsOrOptStr f.type "unknown" ++ "\n" ++
  "- **Raw Output**: `" ++ f.line ++ "`\n\n"

/-- The findings table plus detailed sections (only when findings exist). -/
def mdFindingsSection (findings : List Finding) : String :=
  if findings.length > 0 then
    "| Severity | Title | Tool |\n|----------|-------|------|\n" ++
    String.join (findings.map mdFindingRow) ++
    "\n## Detailed Findings\n\n" ++
    String.join (findings.enum.map (fun p => mdFindingDetail p.1 p.2))
  else ""

/-- One Tool Reports manifest line (`file.split('.').pop()` picks the
extension). -/
def mdReportFileLine (tool file : String) : String :=
  let ext := ((jsSplit file '.').getLast?).getD ""
  let ty := if ext = "json" then "JSON Report"
            else if ext = "html" then "HTML Report" else "Report"
  "- `" ++ file ++ "` - " ++ jsOrStr tool "Tool" ++ " " ++ ty ++ "\n"

/-- The File Artifacts section. -/
def mdArtifactsSection (m : ReportMetadata) (reportFiles : List String)
    (batchId runId : String) : String :=
  "## File Artifacts\n\n### Raw Output\n- `artifacts/" ++ batchId ++ "/" ++ runId ++
    "_raw.txt` - Complete stdout from " ++ jsOrStr m.tool "tool" ++ "\n" ++
  (if reportFiles.length > 0 then
    "\n### Tool Reports\n" ++ String.join (reportFiles.map (mdReportFileLine m.tool))
  else "") ++
  "\n### Markdown Report\n- `artifacts/" ++ batchId ++ "/" ++ runId ++
    "_report.md` - This report\n"

/-- The Error Information section (only when `result.error` is truthy). -/
def mdErrorSection (result : RunScanResult) : String :=
  if strTruthy result.error then
    "\n## Error Information\n```\n" ++ result.error.getD "" ++ "\n```\n"
  else ""

/-- `generateMarkdownContent`; `now` models the `new Date().toISOString()`
fallback read of the clock. -/
def generateMarkdownContent (runId : String) (metadata : ReportMetadata)
    (result : RunScanResult) (findings : List Finding)
    (reportFiles : List String) (batchId : String) (now : String) : String :=
  mdHeader runId metadata result findings (jsOrOptStr metadata.timestamp now) ++
    mdFindingsSection findings ++
    mdArtifactsSection metadata reportFiles batchId runId ++
    mdErrorSection result

/-! ### Marker predicates

One predicate per tool, collecting exactly the guard substrings its parser
dispatches on; a line on which the predicate is false is skipped by every
branch of that parser. -/

/-- The guard substrings of `parseZapFindings`. -/
def zapLineHasMarker (line : String) : Bool :=
  jsIncludes line "WARN-NEW:" || jsIncludes line "FAIL-NEW:" ||
  jsIncludes line "FINISHED JOB" || jsIncludes line "alerts found" ||
  jsIncludes line "Cross Site Scripting" || jsIncludes line "XSS" ||
  jsIncludes line "SQL Injection" || jsIncludes line "SQLi" ||
  jsIncludes line "Path Traversal" || jsIncludes line "Directory Browsing" ||
  jsIncludes line "CSRF" || jsIncludes line "Cross-Site Request Forgery" ||
  jsIncludes line "/rest/" || jsIncludes line "/api/"

/-- The guard conditions of `parseNiktoFindings`. -/
def niktoLineHasMarker (line : String) : Bool :=
  jsStartsWith line "+" ||
  jsIncludes line "items checked" || jsIncludes line "requests made" ||
  jsIncludes line "ERROR" || jsIncludes line "500" || jsIncludes line "403"

/-- The guard conditions of `parseWapitiFindings`. -/
def wapitiLineHasMarker (line : String) : Bool :=
  jsIncludes line "XSS" || jsIncludes line "Cross Site Scripting" ||
  jsIncludes line "SQL" || jsIncludes line "sql injection" ||
  jsIncludes line "SSRF" || jsIncludes line "Server Side Request Forgery" ||
  (jsIncludes line "upload" && jsIncludes line "vulnerability") ||
  jsIncludes line "redirect" || jsIncludes line "open redirect" ||
  jsIncludes line "pages found" || jsIncludes line "forms found" ||
  jsIncludes line "[!]" || jsIncludes line "WARNING" || jsIncludes line "ERROR"

/-! ### Several batches on one `BatchManager`

`scheduleRun`'s admission loop reads `batch.progress.running` of its own
batch only, so a system of two started batches steps each component
independently. -/

/-- One step of a process running two started batches. -/
inductive MStep : SchedState × SchedState → SchedState × SchedState → Prop where
  | left {a a' b : SchedState} (h : StepAny a a') : MStep (a, b) (a', b)
  | right {a b b' : SchedState} (h : StepAny b b') : MStep (a, b) (a, b')

/-- Reachability for two batches started concurrently on one manager. -/
def MReach (id₁ id₂ : String) (N₁ N₂ : Nat) (p : SchedState × SchedState) : Prop :=
  Relation.ReflTransGen MStep (initSched id₁ N₁, initSched id₂ N₂) p

/-! ### Concrete executions used as witnesses -/

/-- An executor that crashes: exit code 2, with some captured output. -/
def crashOutcome : ExecOutcome := .exited 2 "scan output" "boom"

/-- One-run batch `b`: state after run 0 was admitted at time 1. -/
def wState1 : SchedState := admitState (initSched "b" 1) 0 (initRunStatus "b" 0) 1

/-- The status record of run 0 inside `wState1`. -/
def wRun1 : RunStatus :=
  { initRunStatus "b" 0 with status := "running", startedAt := some 1 }

/-- State after run 0's executor crashed and `scheduleRun` finished. -/
def wState2 : SchedState := finishOkState wState1 0 wRun1 crashOutcome 2 3 4

/-- State after `finalizeBatch`. -/
def wState3 : SchedState := finalizeState wState2

/-- The `runScan` result stored for the crashed run. -/
def wResFinal : RunScanResult :=
  (runScan (runIdOf "b" 0 ++ "_" ++ toString 2) crashOutcome 2 3).1

/-- The terminal status record of the crashed run. -/
def wRunFinal : RunStatus :=
  { wRun1 with status := "completed", completedAt := some 4,
               duration := some wResFinal.duration, result := some wResFinal }

/-- Two three-run batches `A` and `B`: all six runs admitted. -/
def mA1 : SchedState := admitState (initSched "A" 3) 0 (initRunStatus "A" 0) 0
def mA2 : SchedState := admitState mA1 1 (initRunStatus "A" 1) 0
def mA3 : SchedState := admitState mA2 2 (initRunStatus "A" 2) 0
def mB1 : SchedState := admitState (initSched "B" 3) 0 (initRunStatus "B" 0) 0
def mB2 : SchedState := admitState mB1 1 (initRunStatus "B" 1) 0
def mB3 : SchedState := admitState mB2 2 (initRunStatus "B" 2) 0

/-- A concrete registry holding one batch, for the event-bus witnesses. -/
def wCfg : ScanConfig := { tool := "zap", targetUrl := "http://target", repetitions := 2 }
def wReg : Registry := (createBatch [] wCfg 1 "r4nd0m").1
def wBatch : BatchRec := (createBatch [] wCfg 1 "r4nd0m").2
def wBid : String := mkBatchId 1 "r4nd0m" "zap"
def wWs : WsClient := { wsId := 7, readyState := 1 }

/-- A configuration with an invalid repetition count. -/
def c5cfg0 : ScanConfig := { tool := "zap", targetUrl := "http://x", repetitions := 0 }

/-- Concrete report metadata with no timestamp (forcing the clock fallback). -/
def c6meta : ReportMetadata :=
  { tool := "zap", target_url := "http://t", duration_seconds := some 0,
    timestamp := none }

/-- A concrete successful scan result. -/
def c6res : RunScanResult :=
  { runId := "x", exitCode := some 0, stdout := "", stderr := "",
    duration := 0, success := true }

/-! ### Theorems -/

/-- Glue: `startBatch` really starts from `createBatch`'s run slots — the
initial scheduler state carries exactly the `runStatuses` that `createBatch`
allocated. -/
theorem initSched_matches_createBatch (reg : Registry) (config : ScanConfig)
    (now : Nat) (rand : String) :
    ((createBatch reg config now rand).2).runStatuses =
      (initSched (mkBatchId now rand config.tool) config.repetitions.toNat).runStatuses :=
  rfl

theorem countP_set_add (p : RunStatus → Bool) :
    ∀ (l : List RunStatus) (i : Nat) (a b : RunStatus), l.get? i = some a →
      (l.set i b).countP p + (if p a then 1 else 0) =
        l.countP p + (if p b then 1 else 0)
  | [], i, _, _, h => by simp at h
  | x :: xs, 0, a, b, h => by
    simp only [List.get?] at h
    injection h with h
    subst h
    simp only [List.set, List.countP_cons]
    cases hb : p b <;> cases ha : p x <;> simp
  | x :: xs, i+1, a, b, h => by
    simp only [List.get?] at h
    have ih := countP_set_add p xs i a b h
    simp only [List.set, List.countP_cons]
    cases hx : p x <;> simp <;> omega

theorem countStatus_partition :
    ∀ l : List RunStatus,
      (∀ r ∈ l, r.status = "pending" ∨ r.status = "running" ∨
        r.status = "completed" ∨ r.status = "failed") →
      countStatus "pending" l + countStatus "running" l +
        countStatus "completed" l + countStatus "failed" l = l.length
  | [], _ => rfl
  | x :: xs, h => by
    have hx := h x (by simp)
    have ih := countStatus_partition xs (fun r hr => h r (by simp [hr]))
    simp only [countStatus, List.countP_cons, List.length_cons] at *
    rcases hx with hx | hx | hx | hx <;> simp [hx] <;> omega

/-- A failed `runScan` result always carries an error message. -/
theorem runScan_success_false_error (rid : String) (o : ExecOutcome) (t0 t1 : Nat) :
    (runScan rid o t0 t1).1.success = false → ((runScan rid o t0 t1).1.error).isSome := by
  cases o with
  | exited c out err => cases c with
    | zero => simp [runScan]
    | succ c => simp [runScan]
  | spawnFail m out err => simp [runScan]

/-! ### The scheduler invariant -/

theorem inv_init (batchId : String) (N : Nat) : Inv N (initSched batchId N) where
  len := by simp [initSched]
  run_eq := by
    simp only [initSched]
    rw [countStatus, List.countP_eq_zero.mpr]
    intro a ha
    obtain ⟨i, _, rfl⟩ := List.mem_map.mp ha
    simp [initRunStatus]
  comp_eq := by
    simp only [initSched]
    rw [countStatus, List.countP_eq_zero.mpr]
    intro a ha
    obtain ⟨i, _, rfl⟩ := List.mem_map.mp ha
    simp [initRunStatus]
  fail_eq := by
    simp only [initSched]
    rw [countStatus, List.countP_eq_zero.mpr]
    intro a ha
    obtain ⟨i, _, rfl⟩ := List.mem_map.mp ha
    simp [initRunStatus]
  cap := by simp [initSched, maxConcurrent]
  statuses := by
    intro r hr
    obtain ⟨i, _, rfl⟩ := List.mem_map.mp hr
    simp [initRunStatus]
  bstatus := Or.inl rfl
  done_when_completed := by intro h; simp [initSched] at h
  result_status := by
    intro r hr
    obtain ⟨i, _, rfl⟩ := List.mem_map.mp hr
    simp [initRunStatus]
  result_err := by
    intro r hr
    obtain ⟨i, _, rfl⟩ := List.mem_map.mp hr
    simp [initRunStatus]

theorem inv_admitRun {N : Nat} {s : SchedState} {i t : Nat} {r : RunStatus}
    (h : Inv N s) (hr : s.runStatuses.get? i = some r) (hp : r.status = "pending")
    (hc : s.running < maxConcurrent) :
    Inv N (admitState s i r t) := by
  have hmem := List.get?_mem hr
  have hcount : ∀ st : String,
      countStatus st (s.runStatuses.set i { r with status := "running", startedAt := some t }) +
          (if r.status == st then 1 else 0) =
        countStatus st s.runStatuses +
          (if ({ r with status := "running", startedAt := some t } : RunStatus).status == st
           then 1 else 0) :=
    fun st => countP_set_add (fun rr => rr.status == st) s.runStatuses i r _ hr
  have hrun := hcount "running"
  have hcomp := hcount "completed"
  have hfail := hcount "failed"
  rw [hp] at hrun hcomp hfail
  simp only [] at hrun hcomp hfail
  simp at hrun hcomp hfail
  refine
    { len := by simp [admitState, List.length_set, h.len]
      run_eq := by
        have := h.run_eq
        simp only [admitState]
        omega
      comp_eq := by
        have := h.comp_eq
        simp only [admitState]
        omega
      fail_eq := by
        have := h.fail_eq
        simp only [admitState]
        omega
      cap := by
        have := h.cap
        simp only [admitState]
        omega
      statuses := ?_
      bstatus := by simpa [admitState] using h.bstatus
      done_when_completed := ?_
      result_status := ?_
      result_err := ?_ }
  · intro r' hr'
    rcases List.mem_or_eq_of_mem_set hr' with h' | rfl
    · exact h.statuses r' h'
    · simp
  · intro hcmp
    exfalso
    have := (h.done_when_completed (by simpa [admitState] using hcmp)).1
    have hnp := List.countP_eq_zero.mp this r hmem
    simp [hp] at hnp
  · intro r' hr' hsome
    rcases List.mem_or_eq_of_mem_set hr' with h' | rfl
    · exact h.result_status r' h' hsome
    · exfalso
      simp only [admitState] at hsome
      have := h.result_status r hmem (by simpa using hsome)
      rw [hp] at this
      simp at this
  · intro r' hr' res hres hsucc
    rcases List.mem_or_eq_of_mem_set hr' with h' | rfl
    · exact h.result_err r' h' res hres hsucc
    · exact h.result_err r hmem res (by simpa using hres) hsucc

theorem inv_finishOk {N : Nat} {s : SchedState} {i : Nat} {r : RunStatus}
    (o : ExecOutcome) (t0 t1 t2 : Nat)
    (h : Inv N s) (hr : s.runStatuses.get? i = some r) (hp : r.status = "running") :
    Inv N (finishOkState s i r o t0 t1 t2) := by
  have hmem := List.get?_mem hr
  set res := (runScan (runIdOf s.batchId i ++ "_" ++ toString t0) o t0 t1).1 with hresdef
  have hcount : ∀ st : String,
      countStatus st (s.runStatuses.set i
          { r with status := "completed", completedAt := some t2,
                   duration := some res.duration, result := some res }) +
          (if r.status == st then 1 else 0) =
        countStatus st s.runStatuses +
          (if ({ r with status := "completed", completedAt := some t2,
                        duration := some res.duration,
                        result := some res } : RunStatus).status == st
           then 1 else 0) :=
    fun st => countP_set_add (fun rr => rr.status == st) s.runStatuses i r _ hr
  have hrun := hcount "running"
  have hcomp := hcount "completed"
  have hfail := hcount "failed"
  rw [hp] at hrun hcomp hfail
  simp at hrun hcomp hfail
  refine
    { len := by simp [finishOkState, List.length_set, h.len]
      run_eq := by
        have := h.run_eq
        simp only [finishOkState, ← hresdef]
        omega
      comp_eq := by
        have := h.comp_eq
        simp only [finishOkState, ← hresdef]
        omega
      fail_eq := by
        have := h.fail_eq
        simp only [finishOkState, ← hresdef]
        omega
      cap := by
        have := h.cap
        simp only [finishOkState]
        omega
      statuses := ?_
      bstatus := by simpa [finishOkState] using h.bstatus
      done_when_completed := ?_
      result_status := ?_
      result_err := ?_ }
  · intro r' hr'
    simp only [finishOkState, ← hresdef] at hr'
    rcases List.mem_or_eq_of_mem_set hr' with h' | rfl
    · exact h.statuses r' h'
    · simp
  · intro hcmp
    exfalso
    have := (h.done_when_completed (by simpa [finishOkState] using hcmp)).2
    have hnp := List.countP_eq_zero.mp this r hmem
    simp [hp] at hnp
  · intro r' hr' hsome
    simp only [finishOkState, ← hresdef] at hr'
    rcases List.mem_or_eq_of_mem_set hr' with h' | rfl
    · exact h.result_status r' h' hsome
    · rfl
  · intro r' hr' res' hres hsucc
    simp only [finishOkState, ← hresdef] at hr'
    rcases List.mem_or_eq_of_mem_set hr' with h' | rfl
    · exact h.result_err r' h' res' hres hsucc
    · have : res' = res := by simpa using hres.symm
      subst this
      exact runScan_success_false_error _ o t0 t1 hsucc

theorem inv_finishErr {N : Nat} {s : SchedState} {i : Nat} {r : RunStatus}
    (msg : String) (t : Nat)
    (h : Inv N s) (hr : s.runStatuses.get? i = some r) (hp : r.status = "running") :
    Inv N (finishErrState s i r msg t) := by
  have hmem := List.get?_mem hr
  have hnores : r.result = none := by
    cases hres : r.result with
    | none => rfl
    | some res =>
      exfalso
      have := h.result_status r hmem (by simp [hres])
      rw [hp] at this
      simp at this
  have hcount : ∀ st : String,
      countStatus st (s.runStatuses.set i
          { r with status := "failed", completedAt := some t, error := some msg }) +
          (if r.status == st then 1 else 0) =
        countStatus st s.runStatuses +
          (if ({ r with status := "failed", completedAt := some t,
                        error := some msg } : RunStatus).status == st
           then 1 else 0) :=
    fun st => countP_set_add (fun rr => rr.status == st) s.runStatuses i r _ hr
  have hrun := hcount "running"
  have hcomp := hcount "completed"
  have hfail := hcount "failed"
  rw [hp] at hrun hcomp hfail
  simp at hrun hcomp hfail
  refine
    { len := by simp [finishErrState, List.length_set, h.len]
      run_eq := by
        have := h.run_eq
        simp only [finishErrState]
        omega
      comp_eq := by
        have := h.comp_eq
        simp only [finishErrState]
        omega
      fail_eq := by
        have := h.fail_eq
        simp only [finishErrState]
        omega
      cap := by
        have := h.cap
        simp only [finishErrState]
        omega
      statuses := ?_
      bstatus := by simpa [finishErrState] using h.bstatus
      done_when_completed := ?_
      result_status := ?_
      result_err := ?_ }
  · intro r' hr'
    simp only [finishErrState] at hr'
    rcases List.mem_or_eq_of_mem_set hr' with h' | rfl
    · exact h.statuses r' h'
    · simp
  · intro hcmp
    exfalso
    have := (h.done_when_completed (by simpa [finishErrState] using hcmp)).2
    have hnp := List.countP_eq_zero.mp this r hmem
    simp [hp] at hnp
  · intro r' hr' hsome
    simp only [finishErrState] at hr'
    rcases List.mem_or_eq_of_mem_set hr' with h' | rfl
    · exact h.result_status r' h' hsome
    · exfalso
      simp [hnores] at hsome
  · intro r' hr' res' hres hsucc
    simp only [finishErrState] at hr'
    rcases List.mem_or_eq_of_mem_set hr' with h' | rfl
    · exact h.result_err r' h' res' hres hsucc
    · exfalso
      simp [hnores] at hres

theorem inv_finalizeStep {N : Nat} {s : SchedState}
    (h : Inv N s)
    (hall : ∀ r ∈ s.runStatuses, r.status = "completed" ∨ r.status = "failed") :
    Inv N (finalizeState s) := by
  refine
    { len := h.len
      run_eq := h.run_eq
      comp_eq := h.comp_eq
      fail_eq := h.fail_eq
      cap := h.cap
      statuses := h.statuses
      bstatus := Or.inr rfl
      done_when_completed := ?_
      result_status := h.result_status
      result_err := h.result_err }
  intro _
  constructor
  · rw [countStatus, List.countP_eq_zero]
    intro a ha
    rcases hall a ha with h' | h' <;> simp [h']
  · rw [countStatus, List.countP_eq_zero]
    intro a ha
    rcases hall a ha with h' | h' <;> simp [h']

theorem inv_preserved {N : Nat} {s s' : SchedState}
    (h : Inv N s) (hs : StepAny s s') : Inv N s' := by
  obtain ⟨l, hstep⟩ := hs
  cases hstep with
  | admitRun hr hp hc => exact inv_admitRun h hr hp hc
  | finishOk o t0 t1 t2 hr hp => exact inv_finishOk o t0 t1 t2 h hr hp
  | finishErr msg t hr hp => exact inv_finishErr msg t h hr hp
  | finalize hs hall => exact inv_finalizeStep h hall

/-- Every state the scheduler can reach satisfies the invariant. -/
theorem inv_of_reach {batchId : String} {N : Nat} {s : SchedState}
    (h : Reach batchId N s) : Inv N s := by
  induction h with
  | refl => exact inv_init batchId N
  | tail _ hstep ih => exact inv_preserved ih hstep

/-! ### Liveness: a started batch always still reaches `completed` -/

theorem countStatus_admitState (st : String) (s : SchedState) (i t : Nat)
    (r : RunStatus) (hr : s.runStatuses.get? i = some r) :
    countStatus st ((admitState s i r t).runStatuses) +
        (if r.status == st then 1 else 0) =
      countStatus st s.runStatuses + (if "running" == st then 1 else 0) := by
  have := countP_set_add (fun rr => rr.status == st) s.runStatuses i r
    { r with status := "running", startedAt := some t } hr
  simpa [admitState] using this

theorem countStatus_finishOkState (st : String) (s : SchedState) (i : Nat)
    (r : RunStatus) (o : ExecOutcome) (t0 t1 t2 : Nat)
    (hr : s.runStatuses.get? i = some r) :
    countStatus st ((finishOkState s i r o t0 t1 t2).runStatuses) +
        (if r.status == st then 1 else 0) =
      countStatus st s.runStatuses + (if "completed" == st then 1 else 0) := by
  have := countP_set_add (fun rr => rr.status == st) s.runStatuses i r
    { r with status := "completed", completedAt := some t2,
             duration := some ((runScan (runIdOf s.batchId i ++ "_" ++ toString t0) o t0 t1).1).duration,
             result := some ((runScan (runIdOf s.batchId i ++ "_" ++ toString t0) o t0 t1).1) } hr
  simpa [finishOkState] using this

theorem countStatus_finishErrState (st : String) (s : SchedState) (i : Nat)
    (r : RunStatus) (msg : String) (t : Nat)
    (hr : s.runStatuses.get? i = some r) :
    countStatus st ((finishErrState s i r msg t).runStatuses) +
        (if r.status == st then 1 else 0) =
      countStatus st s.runStatuses + (if "failed" == st then 1 else 0) := by
  have := countP_set_add (fun rr => rr.status == st) s.runStatuses i r
    { r with status := "failed", completedAt := some t, error := some msg } hr
  simpa [finishErrState] using this

theorem finalize_now {N : Nat} {s : SchedState} (h : Inv N s)
    (hp : countStatus "pending" s.runStatuses = 0)
    (hr : countStatus "running" s.runStatuses = 0) :
    ∃ s', Relation.ReflTransGen StepAny s s' ∧ s'.status = "completed" := by
  have hall : ∀ r ∈ s.runStatuses, r.status = "completed" ∨ r.status = "failed" := by
    intro r hmem
    have hnp := List.countP_eq_zero.mp hp r hmem
    have hnr := List.countP_eq_zero.mp hr r hmem
    rcases h.statuses r hmem with h' | h' | h' | h'
    · exact absurd (by simp [h']) hnp
    · exact absurd (by simp [h']) hnr
    · exact Or.inl h'
    · exact Or.inr h'
  rcases h.bstatus with hb | hb
  · exact ⟨finalizeState s,
      Relation.ReflTransGen.single ⟨.finalize, Step.finalize hb hall⟩, rfl⟩
  · exact ⟨s, Relation.ReflTransGen.refl, hb⟩

theorem reach_completed_of_inv {N : Nat} :
    ∀ (fuel : Nat) (s : SchedState), Inv N s →
      2 * countStatus "pending" s.runStatuses +
        countStatus "running" s.runStatuses ≤ fuel →
      ∃ s', Relation.ReflTransGen StepAny s s' ∧ s'.status = "completed"
  | 0, s, h, hfuel =>
    finalize_now h (by omega) (by omega)
  | fuel+1, s, h, hfuel => by
    by_cases hrun0 : 0 < countStatus "running" s.runStatuses
    · obtain ⟨a, ha, hpa⟩ := List.countP_pos_iff.mp hrun0
      obtain ⟨i, hi⟩ := List.mem_iff_get?.mp ha
      have hst : a.status = "running" := by simpa using hpa
      have hstep : Step (.finishOk i (.exited 0 "" "") 0 0 0) s
          (finishOkState s i a (.exited 0 "" "") 0 0 0) :=
        Step.finishOk _ 0 0 0 hi hst
      have hinv' := inv_preserved h ⟨_, hstep⟩
      have hcp := countStatus_finishOkState "pending" s i a (.exited 0 "" "") 0 0 0 hi
      have hcr := countStatus_finishOkState "running" s i a (.exited 0 "" "") 0 0 0 hi
      rw [hst] at hcp hcr
      simp at hcp hcr
      obtain ⟨s', hs', hcmp⟩ := reach_completed_of_inv fuel _ hinv' (by omega)
      exact ⟨s', Relation.ReflTransGen.head ⟨_, hstep⟩ hs', hcmp⟩
    · by_cases hpend0 : 0 < countStatus "pending" s.runStatuses
      · obtain ⟨a, ha, hpa⟩ := List.countP_pos_iff.mp hpend0
        obtain ⟨i, hi⟩ := List.mem_iff_get?.mp ha
        have hst : a.status = "pending" := by simpa using hpa
        have hrz : s.running = 0 := by
          have := h.run_eq
          omega
        have hstep : Step (.admitRun i 0) s (admitState s i a 0) :=
          Step.admitRun hi hst (by rw [hrz]; decide)
        have hinv' := inv_preserved h ⟨_, hstep⟩
        have hcp := countStatus_admitState "pending" s i 0 a hi
        have hcr := countStatus_admitState "running" s i 0 a hi
        rw [hst] at hcp hcr
        simp at hcp hcr
        obtain ⟨s', hs', hcmp⟩ := reach_completed_of_inv fuel _ hinv' (by omega)
        exact ⟨s', Relation.ReflTransGen.head ⟨_, hstep⟩ hs', hcmp⟩
      · exact finalize_now h (by omega) (by omega)

/-- From any reachable state of a started batch, the batch still reaches
status `completed`. -/
theorem completion_reachable {batchId : String} {N : Nat} {s : SchedState}
    (h : Reach batchId N s) :
    ∃ s', Relation.ReflTransGen StepAny s s' ∧ s'.status = "completed" :=
  reach_completed_of_inv
    (2 * countStatus "pending" s.runStatuses + countStatus "running" s.runStatuses)
    s (inv_of_reach h) le_rfl

/-! ### Helper facts for concrete executions -/

theorem wStep1 : Step (.admitRun 0 1) (initSched "b" 1) wState1 :=
  Step.admitRun rfl rfl (by decide)

theorem wStep2 : Step (.finishOk 0 crashOutcome 2 3 4) wState1 wState2 :=
  Step.finishOk crashOutcome 2 3 4 rfl rfl

theorem wStep3 : Step .finalize wState2 wState3 :=
  Step.finalize rfl (by decide)

theorem wReach : Reach "b" 1 wState3 :=
  Relation.ReflTransGen.tail
    (Relation.ReflTransGen.tail
      (Relation.ReflTransGen.single ⟨_, wStep1⟩) ⟨_, wStep2⟩) ⟨_, wStep3⟩

theorem mStepA1 : Step (.admitRun 0 0) (initSched "A" 3) mA1 :=
  Step.admitRun rfl rfl (by decide)

theorem mStepA2 : Step (.admitRun 1 0) mA1 mA2 :=
  Step.admitRun rfl rfl (by decide)

theorem mStepA3 : Step (.admitRun 2 0) mA2 mA3 :=
  Step.admitRun rfl rfl (by decide)

theorem mStepB1 : Step (.admitRun 0 0) (initSched "B" 3) mB1 :=
  Step.admitRun rfl rfl (by decide)

theorem mStepB2 : Step (.admitRun 1 0) mB1 mB2 :=
  Step.admitRun rfl rfl (by decide)

theorem mStepB3 : Step (.admitRun 2 0) mB2 mB3 :=
  Step.admitRun rfl rfl (by decide)

theorem mTrace : MReach "A" "B" 3 3 (mA3, mB3) :=
  Relation.ReflTransGen.tail
    (Relation.ReflTransGen.tail
      (Relation.ReflTransGen.tail
        (Relation.ReflTransGen.tail
          (Relation.ReflTransGen.tail
            (Relation.ReflTransGen.single
              (MStep.left ⟨_, mStepA1⟩))
            (MStep.left ⟨_, mStepA2⟩))
          (MStep.left ⟨_, mStepA3⟩))
        (MStep.right ⟨_, mStepB1⟩))
      (MStep.right ⟨_, mStepB2⟩))
    (MStep.right ⟨_, mStepB3⟩)

/-- Each component of a two-batch execution is a single-batch execution. -/
theorem mreach_proj {id₁ id₂ : String} {N₁ N₂ : Nat} {p : SchedState × SchedState}
    (h : MReach id₁ id₂ N₁ N₂ p) : Reach id₁ N₁ p.1 ∧ Reach id₂ N₂ p.2 := by
  induction h with
  | refl => exact ⟨Relation.ReflTransGen.refl, Relation.ReflTransGen.refl⟩
  | tail _ hstep ih =>
    cases hstep with
    | left h => exact ⟨Relation.ReflTransGen.tail ih.1 h, ih.2⟩
    | right h => exact ⟨ih.1, Relation.ReflTransGen.tail ih.2 h⟩

theorem Registry.get_set_self :
    ∀ (reg : Registry) (k : String) (b : BatchRec),
      Registry.get (Registry.set reg k b) k = some b
  | [], k, b => by simp [Registry.set, Registry.get]
  | (k', b') :: rest, k, b => by
    by_cases h : k' = k
    · simp [Registry.set, Registry.get, h]
    · simp [Registry.set, Registry.get, h, Registry.get_set_self rest k b]

/-! ### No-marker lines produce no findings -/

theorem zapLineFindings_eq_nil {line : String}
    (h : zapLineHasMarker line = false) : zapLineFindings line = [] := by
  simp only [zapLineHasMarker, Bool.or_eq_false_iff] at h
  obtain ⟨⟨⟨⟨⟨⟨⟨⟨⟨⟨⟨⟨⟨h1, h2⟩, h3⟩, h4⟩, h5⟩, h6⟩, h7⟩, h8⟩, h9⟩, h10⟩, h11⟩,
    h12⟩, h13⟩, h14⟩ := h
  simp [zapLineFindings, zapBaselineFindings, zapAutomationFindings,
    zapXssFindings, zapSqliFindings, zapPathFindings, zapCsrfFindings,
    zapApiFindings, h1, h2, h3, h4, h5, h6, h7, h8, h9, h10, h11, h12, h13, h14]

theorem niktoLineFindings_eq_nil {line : String}
    (h : niktoLineHasMarker line = false) : niktoLineFindings line = [] := by
  simp only [niktoLineHasMarker, Bool.or_eq_false_iff] at h
  obtain ⟨⟨⟨⟨⟨h1, h2⟩, h3⟩, h4⟩, h5⟩, h6⟩ := h
  simp [niktoLineFindings, niktoPlusFindings, niktoStatsFindings,
    niktoErrorFindings, h1, h2, h3, h4, h5, h6]

theorem wapitiLineFindings_eq_nil {line : String}
    (h : wapitiLineHasMarker line = false) : wapitiLineFindings line = [] := by
  simp only [wapitiLineHasMarker, Bool.or_eq_false_iff] at h
  obtain ⟨⟨⟨⟨⟨⟨⟨⟨⟨⟨⟨⟨⟨h1, h2⟩, h3⟩, h4⟩, h5⟩, h6⟩, h7⟩, h8⟩, h9⟩, h10⟩, h11⟩,
    h12⟩, h13⟩, h14⟩ := h
  simp [wapitiLineFindings, wapitiXssFindings, wapitiSqlFindings,
    wapitiSsrfFindings, wapitiUploadFindings, wapitiRedirectFindings,
    wapitiStatsFindings, wapitiIssueFindings,
    h1, h2, h3, h4, h5, h6, h7, h8, h9, h10, h11, h12, h13, h14]

theorem flatMap_eq_nil_of_forall {f : String → List Finding} :
    ∀ l : List String, (∀ line ∈ l, f line = []) → l.flatMap f = []
  | [], _ => rfl
  | x :: xs, h => by
    have hx := h x (by simp)
    have ih := flatMap_eq_nil_of_forall xs (fun line hl => h line (by simp [hl]))
    simp [hx, ih]

/-- If the timestamp field is truthy, the `||` fallback never reads its
right-hand side. -/
theorem jsOrOptStr_indep {a : Option String} (b b' : String)
    (h : strTruthy a = true) : jsOrOptStr a b = jsOrOptStr a b' := by
  cases a with
  | none => simp [strTruthy] at h
  | some s =>
    simp only [strTruthy, ne_eq, decide_eq_true_eq] at h
    simp [jsOrOptStr, jsOrStr, h]

/-- Inversion: the only scheduler step that moves a run to status `failed` is
the `catch`-branch step `finishErr`. -/
theorem step_failed_only_by_catch {l : SLabel} {s s' : SchedState}
    (hstep : Step l s s') :
    ∀ (i : Nat) (r r' : RunStatus),
      s.runStatuses.get? i = some r → s'.runStatuses.get? i = some r' →
      r.status ≠ "failed" → r'.status = "failed" →
      ∃ msg t, l = SLabel.finishErr i msg t := by
  cases hstep with
  | @admitRun s j t r₀ hr0 hp0 hc0 =>
    intro i r r' hr hr' hne hfail
    exfalso
    simp only [admitState] at hr'
    by_cases hij : j = i
    · subst hij
      obtain ⟨hlt, _⟩ := List.get?_eq_some.mp hr
      rw [List.get?_set_eq_of_lt _ (by simpa using hlt)] at hr'
      injection hr' with hr'
      rw [← hr'] at hfail
      simp at hfail
    · rw [List.get?_set_ne _ _ hij] at hr'
      rw [hr] at hr'
      injection hr' with hr'
      rw [← hr'] at hfail
      exact hne hfail
  | @finishOk s j r₀ o t0 t1 t2 hr0 hp0 =>
    intro i r r' hr hr' hne hfail
    exfalso
    simp only [finishOkState] at hr'
    by_cases hij : j = i
    · subst hij
      obtain ⟨hlt, _⟩ := List.get?_eq_some.mp hr
      rw [List.get?_set_eq_of_lt _ (by simpa using hlt)] at hr'
      injection hr' with hr'
      rw [← hr'] at hfail
      simp at hfail
    · rw [List.get?_set_ne _ _ hij] at hr'
      rw [hr] at hr'
      injection hr' with hr'
      rw [← hr'] at hfail
      exact hne hfail
  | @finishErr s j r₀ msg t hr0 hp0 =>
    intro i r r' hr hr' hne hfail
    by_cases hij : j = i
    · subst hij
      exact ⟨msg, t, rfl⟩
    · exfalso
      simp only [finishErrState] at hr'
      rw [List.get?_set_ne _ _ hij] at hr'
      rw [hr] at hr'
      injection hr' with hr'
      rw [← hr'] at hfail
      exact hne hfail
  | @finalize s hs0 hall0 =>
    intro i r r' hr hr' hne hfail
    exfalso
    simp only [finalizeState] at hr'
    rw [hr] at hr'
    injection hr' with hr'
    rw [← hr'] at hfail
    exact hne hfail

/-! ### The claims -/

/-- C1: for every batch with `N` runs (including `N` greater than the cap),
at every point during the execution of a started batch the batch's
`progress.running` counter is at most `maxConcurrent = 3`: `scheduleRun` only
increments `running` after the admission wait observes it below the cap and
decrements it when the run terminates, so no interleaving of the `N`
concurrent scheduling tasks drives the counter above 3. -/
theorem claim_C1_running_never_exceeds_cap (batchId : String) (N : Nat)
    (s : SchedState) (h : Reach batchId N s) : s.running ≤ maxConcurrent :=
  (inv_of_reach h).cap

/-- Witness for C1: a concrete reachable state of a 10-run batch. -/
theorem claim_C1_witness :
    (admitState (initSched "w" 10) 0 (initRunStatus "w" 0) 1).running ≤ maxConcurrent :=
  claim_C1_running_never_exceeds_cap "w" 10 _
    (Relation.ReflTransGen.single ⟨_, Step.admitRun rfl rfl (by decide)⟩)

/-- C2: for every batch of `N` runs, once the fan-in over all scheduling
tasks has completed and the batch reached status `completed`, the counters
satisfy `completed + failed = N` and `running = 0`. -/
theorem claim_C2_final_counters (batchId : String) (N : Nat) (s : SchedState)
    (h : Reach batchId N s) (hc : s.status = "completed") :
    s.completed + s.failed = N ∧ s.running = 0 := by
  have hinv := inv_of_reach h
  obtain ⟨hp0, hr0⟩ := hinv.done_when_completed hc
  have hpart := countStatus_partition s.runStatuses hinv.statuses
  have h1 := hinv.comp_eq
  have h2 := hinv.fail_eq
  have h3 := hinv.run_eq
  have h4 := hinv.len
  constructor
  · simp only [countStatus] at *
    omega
  · simp only [countStatus] at *
    omega

/-- Witness for C2: the completed one-run batch execution. -/
theorem claim_C2_witness :
    wState3.status = "completed" ∧ wState3.completed + wState3.failed = 1 ∧
      wState3.running = 0 := by
  have h := claim_C2_final_counters "b" 1 wState3 wReach rfl
  exact ⟨rfl, h.1, h.2⟩

/-- C3 counterexample: in a complete execution in which the executor of the
only run exited with crash code 2, that run ends in status `completed` (not
`failed`), its status record carries no `error` field, and the `failed`
counter stays 0 — refuting the claim that a crash-exit run ends `failed`,
with an error, counted in `failed`. -/
theorem claim_C3_counterexample :
    Reach "b" 1 wState3 ∧ wState3.status = "completed" ∧
      wState3.runStatuses.get? 0 = some wRunFinal ∧
      wRunFinal.result = some wResFinal ∧ wResFinal.exitCode = some 2 ∧
      wResFinal.success = false ∧
      wRunFinal.status = "completed" ∧ wRunFinal.error = none ∧
      wState3.failed = 0 ∧ wState3.completed = 1 :=
  ⟨wReach, rfl, by decide, rfl, rfl, rfl, rfl, rfl, rfl, rfl⟩

/-- C3 amended: a run whose executor exits with a crash code ends in status
`completed`, not `failed` — `runScan` converts the rejection into a resolved
result with `success: false` and an error message, so the run is counted in
`completed` and its stored result carries the error; the containing batch
still reaches status `completed`. -/
theorem claim_C3_amended_crash_run_completed (batchId : String) (N : Nat)
    (s : SchedState) (h : Reach batchId N s) :
    (∀ r ∈ s.runStatuses, ∀ res, r.result = some res → res.success = false →
      r.status = "completed" ∧ res.error.isSome) ∧
    (∃ s', Relation.ReflTransGen StepAny s s' ∧ s'.status = "completed") := by
  have hinv := inv_of_reach h
  exact ⟨fun r hr res hres hsucc =>
    ⟨hinv.result_status r hr (by simp [hres]),
     hinv.result_err r hr res hres hsucc⟩,
    completion_reachable h⟩

/-- Witness for the amended C3 at the concrete crashed execution. -/
theorem claim_C3_witness :
    wRunFinal.status = "completed" ∧ wResFinal.error.isSome = true ∧
      wState3.status = "completed" := by
  have h := claim_C3_amended_crash_run_completed "b" 1 wState3 wReach
  have h2 := h.1 wRunFinal (by decide) wResFinal rfl rfl
  exact ⟨h2.1, h2.2, rfl⟩

/-- C4 counterexample: the admission guard reads only its own batch's
`progress.running`, so two concurrently started three-run batches reach six
simultaneously running runs — the process-wide total exceeds 3, refuting the
claim that the cap is global across batches. -/
theorem claim_C4_counterexample :
    MReach "A" "B" 3 3 (mA3, mB3) ∧
      maxConcurrent < mA3.running + mB3.running :=
  ⟨mTrace, by decide⟩

/-- C4 amended: the concurrency cap is per batch — in any execution of
several batches on one `BatchManager`, each batch's own `progress.running`
stays at most 3, but the process-wide total may exceed 3. -/
theorem claim_C4_amended_per_batch_cap (id₁ id₂ : String) (N₁ N₂ : Nat)
    (p : SchedState × SchedState) (h : MReach id₁ id₂ N₁ N₂ p) :
    p.1.running ≤ maxConcurrent ∧ p.2.running ≤ maxConcurrent :=
  ⟨(inv_of_reach (mreach_proj h).1).cap, (inv_of_reach (mreach_proj h).2).cap⟩

/-- Witness for the amended C4 at the six-admissions execution. -/
theorem claim_C4_witness :
    mA3.running ≤ maxConcurrent ∧ mB3.running ≤ maxConcurrent :=
  claim_C4_amended_per_batch_cap "A" "B" 3 3 (mA3, mB3) mTrace

/-- C5 counterexample: `createBatch` performs no validation — with
`repetitions = 0` it does not fail but returns (and registers) a batch with
zero run slots and `progress.total = 0`. -/
theorem claim_C5_counterexample :
    (createBatch [] c5cfg0 5 "rnd").2.runStatuses = [] ∧
    (createBatch [] c5cfg0 5 "rnd").2.progress.total = 0 ∧
    Registry.get (createBatch [] c5cfg0 5 "rnd").1 (mkBatchId 5 "rnd" "zap") =
      some (createBatch [] c5cfg0 5 "rnd").2 := by
  refine ⟨rfl, rfl, ?_⟩
  decide

/-- C5 amended: `createBatch` validates nothing; for every configuration it
returns and registers a batch whose `runStatuses` has exactly
`max(repetitions, 0)` pending slots and whose `progress.total` copies
`repetitions`; in particular `repetitions < 1` yields zero run slots instead
of an error. -/
theorem claim_C5_amended_no_validation (reg : Registry) (config : ScanConfig)
    (now : Nat) (rand : String) :
    ((createBatch reg config now rand).2).runStatuses.length =
        config.repetitions.toNat ∧
    (∀ r ∈ ((createBatch reg config now rand).2).runStatuses,
        r.status = "pending") ∧
    ((createBatch reg config now rand).2).progress.total = config.repetitions ∧
    Registry.get (createBatch reg config now rand).1
        ((createBatch reg config now rand).2).id =
      some (createBatch reg config now rand).2 ∧
    (config.repetitions < 1 →
      ((createBatch reg config now rand).2).runStatuses = []) := by
  refine ⟨by simp [createBatch], ?_, rfl, ?_, ?_⟩
  · intro r hr
    simp only [createBatch, List.mem_map] at hr
    obtain ⟨i, _, rfl⟩ := hr
    rfl
  · exact Registry.get_set_self reg _ _
  · intro h
    have h0 : config.repetitions.toNat = 0 := by omega
    simp [createBatch, h0]

/-- Witness for the amended C5, on a valid and on an invalid configuration. -/
theorem claim_C5_witness :
    ((createBatch [] wCfg 1 "r4nd0m").2).runStatuses.length = 2 ∧
    ((createBatch [] wCfg 1 "r4nd0m").2).progress.total = 2 ∧
    ((createBatch [] c5cfg0 5 "rnd").2).runStatuses = [] := by
  have h1 := claim_C5_amended_no_validation [] wCfg 1 "r4nd0m"
  have h2 := claim_C5_amended_no_validation [] c5cfg0 5 "rnd"
  exact ⟨h1.1, h1.2.2.1, h2.2.2.2.2 (by decide)⟩

/-- C6 counterexample: `generateMarkdownContent` reads the clock through the
`metadata.timestamp || new Date().toISOString()` fallback — with an absent
timestamp, the same argument tuple rendered at two different clock readings
produces different bytes, refuting "no hidden clock dependence" for every
input tuple. -/
theorem claim_C6_counterexample :
    generateMarkdownContent "r1" c6meta c6res [] [] "bt"
        "2024-01-01T00:00:00.000Z" ≠
      generateMarkdownContent "r1" c6meta c6res [] [] "bt"
        "2025-06-07T08:09:10.111Z" := by
  intro h
  have e1 : jsOrOptStr c6meta.timestamp "2024-01-01T00:00:00.000Z" =
      "2024-01-01T00:00:00.000Z" := rfl
  have e2 : jsOrOptStr c6meta.timestamp "2025-06-07T08:09:10.111Z" =
      "2025-06-07T08:09:10.111Z" := rfl
  simp only [generateMarkdownContent, mdHeader, e1, e2] at h
  have h' := congrArg String.data h
  simp only [String.data_append, List.append_assoc] at h'
  replace h' := List.append_cancel_left h'
  replace h' := List.append_cancel_left h'
  replace h' := List.append_cancel_left h'
  replace h' := List.append_cancel_left h'
  replace h' := List.append_cancel_left h'
  replace h' := List.append_cancel_left h'
  replace h' := List.append_cancel_left h'
  replace h' := List.append_cancel_left h'
  replace h' := List.append_cancel_left h'
  replace h' := List.append_cancel_left h'
  replace h' := List.append_cancel_left h'
  replace h' := List.append_cancel_right h'
  exact absurd h' (by decide)

/-- C6 amended: whenever `metadata.timestamp` is provided (non-empty), the
output of `generateMarkdownContent` depends only on the arguments — repeated
calls at different clock readings are byte-identical. -/
theorem claim_C6_amended_deterministic_with_timestamp
    (runId : String) (metadata : ReportMetadata) (result : RunScanResult)
    (findings : List Finding) (reportFiles : List String) (batchId : String)
    (now now' : String) (h : strTruthy metadata.timestamp = true) :
    generateMarkdownContent runId metadata result findings reportFiles batchId now =
      generateMarkdownContent runId metadata result findings reportFiles batchId now' := by
  simp only [generateMarkdownContent]
  rw [jsOrOptStr_indep now now' h]

/-- Witness for the amended C6 at a concrete tuple with a timestamp. -/
theorem claim_C6_witness :
    strTruthy (some "2024-05-05T05:05:05.000Z") = true ∧
    generateMarkdownContent "r1"
        { c6meta with timestamp := some "2024-05-05T05:05:05.000Z" } c6res [] []
        "bt" "clockA" =
      generateMarkdownContent "r1"
        { c6meta with timestamp := some "2024-05-05T05:05:05.000Z" } c6res [] []
        "bt" "clockB" :=
  ⟨by decide,
   claim_C6_amended_deterministic_with_timestamp "r1"
     { c6meta with timestamp := some "2024-05-05T05:05:05.000Z" } c6res [] []
     "bt" "clockA" "clockB" (by decide)⟩

/-- C7: the ZAP text parser applied to the single line
`WARN-NEW: Missing Anti-clickjacking Header [10020]` yields exactly one
finding, with severity `MEDIUM` and title `Missing Anti-clickjacking Header`. -/
theorem claim_C7_zap_warn_new_line :
    parseFindingsFromStdout
        "WARN-NEW: Missing Anti-clickjacking Header [10020]" "zap" =
      [{ severity := "MEDIUM", title := "Missing Anti-clickjacking Header",
         tool := "zap", type := some "baseline_finding",
         line := "WARN-NEW: Missing Anti-clickjacking Header [10020]" }] := by
  decide

/-- C8: `parseFindingsFromStdout` is total on every raw output (the embedding
is a total function); for a known tool whose guard markers occur on no line it
returns the empty list, and for an unknown tool it returns the single
placeholder finding pointing at the raw artifact. -/
theorem claim_C8_parser_tolerance (rawOutput tool : String) :
    (tool ≠ "zap" → tool ≠ "nikto" → tool ≠ "wapiti" →
      parseFindingsFromStdout rawOutput tool =
        [{ severity := "INFO", title := "Parser not implemented for this tool",
           tool := tool, line := "Raw output available in artifacts" }]) ∧
    ((∀ line ∈ jsSplit rawOutput '\n', zapLineHasMarker line = false) →
      parseFindingsFromStdout rawOutput "zap" = []) ∧
    ((∀ line ∈ jsSplit rawOutput '\n', niktoLineHasMarker line = false) →
      parseFindingsFromStdout rawOutput "nikto" = []) ∧
    ((∀ line ∈ jsSplit rawOutput '\n', wapitiLineHasMarker line = false) →
      parseFindingsFromStdout rawOutput "wapiti" = []) := by
  refine ⟨fun h1 h2 h3 => by simp [parseFindingsFromStdout, h1, h2, h3],
    fun h => ?_, fun h => ?_, fun h => ?_⟩
  · simp only [parseFindingsFromStdout, if_pos rfl, parseZapFindings]
    exact flatMap_eq_nil_of_forall _ (fun line hl => zapLineFindings_eq_nil (h line hl))
  · simp only [parseFindingsFromStdout, parseNiktoFindings]
    norm_num
    exact flatMap_eq_nil_of_forall _ (fun line hl => niktoLineFindings_eq_nil (h line hl))
  · simp only [parseFindingsFromStdout, parseWapitiFindings]
    norm_num
    exact flatMap_eq_nil_of_forall _ (fun line hl => wapitiLineFindings_eq_nil (h line hl))

/-- Witness for C8 on concrete marker-free input and an unknown tool. -/
theorem claim_C8_witness :
    parseFindingsFromStdout "hello\nworld" "curl" =
      [{ severity := "INFO", title := "Parser not implemented for this tool",
         tool := "curl", line := "Raw output available in artifacts" }] ∧
    parseFindingsFromStdout "hello\nworld" "zap" = [] ∧
    parseFindingsFromStdout "hello\nworld" "nikto" = [] ∧
    parseFindingsFromStdout "hello\nworld" "wapiti" = [] :=
  ⟨(claim_C8_parser_tolerance "hello\nworld" "curl").1
      (by decide) (by decide) (by decide),
   (claim_C8_parser_tolerance "hello\nworld" "zap").2.1 (by decide),
   (claim_C8_parser_tolerance "hello\nworld" "nikto").2.2.1 (by decide),
   (claim_C8_parser_tolerance "hello\nworld" "wapiti").2.2.2 (by decide)⟩

/-- C9: `runScan` never rejects — for every executor outcome it resolves with
a record carrying the accumulated stdout/stderr, the wall-clock duration and
a success flag, with `success: false` and an error message on any failure,
and it writes the accumulated stdout to the raw artifact in both branches;
consequently the only scheduler step that marks a run `failed` is the
`catch`-branch step, reachable only through non-executor errors. -/
theorem claim_C9_runScan_total (rid : String) (o : ExecOutcome) (t0 t1 : Nat) :
    ((runScan rid o t0 t1).1.stdout = o.stdoutText ∧
     (runScan rid o t0 t1).1.stderr = o.stderrText ∧
     (runScan rid o t0 t1).1.duration = t1 - t0 ∧
     ((runScan rid o t0 t1).1.success = true ↔ o.isOk = true) ∧
     ((runScan rid o t0 t1).1.success = false →
        ((runScan rid o t0 t1).1.error).isSome) ∧
     (runScan rid o t0 t1).2 = o.stdoutText) ∧
    (∀ (l : SLabel) (s s' : SchedState) (i : Nat) (r r' : RunStatus),
      Step l s s' → s.runStatuses.get? i = some r →
      s'.runStatuses.get? i = some r' →
      r.status ≠ "failed" → r'.status = "failed" →
      ∃ msg t, l = SLabel.finishErr i msg t) := by
  constructor
  · cases o with
    | exited c out err =>
      cases c with
      | zero =>
        exact ⟨rfl, rfl, rfl, by simp [runScan, ExecOutcome.isOk],
          by simp [runScan], rfl⟩
      | succ c =>
        exact ⟨rfl, rfl, rfl, by simp [runScan, ExecOutcome.isOk],
          by simp [runScan], rfl⟩
    | spawnFail m out err =>
      exact ⟨rfl, rfl, rfl, by simp [runScan, ExecOutcome.isOk],
        by simp [runScan], rfl⟩
  · intro l s s' i r r' hstep hr hr' hne hfail
    exact step_failed_only_by_catch hstep i r r' hr hr' hne hfail

/-- Witness for C9: a spawn failure still resolves with the stdout written,
and a concrete failed-marking step is a `finishErr`. -/
theorem claim_C9_witness :
    ((runScan "x" (ExecOutcome.spawnFail "boom" "po" "pe") 5 9).1.success = false →
      ((runScan "x" (ExecOutcome.spawnFail "boom" "po" "pe") 5 9).1.error).isSome) ∧
    (runScan "x" (ExecOutcome.spawnFail "boom" "po" "pe") 5 9).2 = "po" ∧
    (∃ msg t, SLabel.finishErr 0 "oops" 7 = SLabel.finishErr 0 msg t) := by
  have h := claim_C9_runScan_total "x" (ExecOutcome.spawnFail "boom" "po" "pe") 5 9
  refine ⟨h.1.2.2.2.2.1, h.1.2.2.2.2.2, ?_⟩
  exact h.2 (SLabel.finishErr 0 "oops" 7) wState1
    (finishErrState wState1 0 wRun1 "oops" 7) 0 wRun1 _
    (Step.finishErr "oops" 7 rfl rfl) rfl rfl (by decide) rfl

/-- C10: `subscribeClient` with an unknown batch id is a silent no-op (no
registration, no message, no error) and `broadcastToBatch` with an unknown id
sends nothing; for a known id the observer is appended to the batch's client
set and is immediately sent exactly one `batch_status` snapshot carrying the
batch's status, progress counters and per-run statuses. -/
theorem claim_C10_subscribe_broadcast (reg : Registry) (batchId : String)
    (ws : WsClient) (data : WsMessage) :
    (Registry.get reg batchId = none →
      subscribeClient reg batchId ws = (reg, []) ∧
      broadcastToBatch reg batchId data = []) ∧
    (∀ b, Registry.get reg batchId = some b →
      (subscribeClient reg batchId ws).2 =
        [(ws.wsId, WsMessage.batchStatus batchId b.status b.progress b.runStatuses)] ∧
      Registry.get (subscribeClient reg batchId ws).1 batchId =
        some { b with clients := b.clients ++ [ws] }) := by
  constructor
  · intro h
    exact ⟨by simp [subscribeClient, h], by simp [broadcastToBatch, h]⟩
  · intro b hb
    exact ⟨by simp [subscribeClient, hb],
      by simp [subscribeClient, hb, Registry.get_set_self]⟩

/-- Witness for C10 on a concrete one-batch registry. -/
theorem claim_C10_witness :
    (subscribeClient wReg "missing" wWs = (wReg, []) ∧
      broadcastToBatch wReg "missing" (WsMessage.other "stdout") = []) ∧
    ((subscribeClient wReg wBid wWs).2 =
      [(7, WsMessage.batchStatus wBid wBatch.status wBatch.progress
            wBatch.runStatuses)] ∧
      Registry.get (subscribeClient wReg wBid wWs).1 wBid =
        some { wBatch with clients := wBatch.clients ++ [wWs] }) :=
  ⟨(claim_C10_subscribe_broadcast wReg "missing" wWs
      (WsMessage.other "stdout")).1 (by decide),
   (claim_C10_subscribe_broadcast wReg wBid wWs
      (WsMessage.other "stdout")).2 wBatch (by decide)⟩

end WebSecStand
